import Mathlib

/-!
Shallow embedding of `airflow_prometheus_exporter/prometheus_exporter.py`.

The orchestration store is modelled as four lists of rows (the four tables
the exporter reads: `DagModel`, `DagRun`, `TaskInstance`, `TaskFail`).
Timestamps are integers (seconds); nullable columns are `Option`.
Each query-layer function of the source is translated to a pure function
from the store to its result rows, paired with the trace of session events
(`open`, `read`, `close`, hypothetical `write`) it performs, mirroring the
`with session_scope(Session)` blocks of the source.  `collect` is the
generator of `MetricsCollector.collect`, modelled as the list of gauge
families yielded before the first uncaught Python exception (if any),
together with the session-event trace of the whole scrape.
-/

namespace AirflowExporter

/-- `CANARY_DAG` constant of the source. -/
def CANARY_DAG : String := "canary_dag"

namespace State

/-- `airflow.utils.state.State.SUCCESS`. -/
def SUCCESS : String := "success"

/-- `airflow.utils.state.State.QUEUED`. -/
def QUEUED : String := "queued"

end State

/-- A row of the `DagModel` table (the columns the exporter reads). -/
structure DagModelRow where
  dag_id : String
  owners : String
deriving DecidableEq, Repr

/-- A row of the `DagRun` table (the columns the exporter reads). -/
structure DagRunRow where
  dag_id : String
  state : Option String
  execution_date : Int
  start_date : Option Int
  end_date : Option Int
deriving DecidableEq, Repr

/-- A row of the `TaskInstance` table (the columns the exporter reads). -/
structure TaskInstanceRow where
  dag_id : String
  task_id : String
  state : Option String
  queue : String
  execution_date : Int
  start_date : Option Int
  end_date : Option Int
  queued_dttm : Option Int
deriving DecidableEq, Repr

/-- A row of the `TaskFail` table (the columns the exporter reads). -/
structure TaskFailRow where
  dag_id : String
  task_id : String
deriving DecidableEq, Repr

/-- The orchestration store: the four tables the exporter queries. -/
structure Store where
  dagModels : List DagModelRow
  dagRuns : List DagRunRow
  taskInstances : List TaskInstanceRow
  taskFails : List TaskFailRow
deriving DecidableEq, Repr

/-- The empty store. -/
def emptyStore : Store := ⟨[], [], [], []⟩

/-! ### Small list helpers used to model SQL `GROUP BY` / `MAX` / `MIN` -/

/-- Distinct keys of a list, first occurrence first (the grouping keys of a
SQL `GROUP BY`). -/
def dedupKeys [DecidableEq κ] (l : List κ) : List κ :=
  l.foldl (fun acc k => if k ∈ acc then acc else acc ++ [k]) []

/-- SQL `MAX` over a column: `none` on the empty list. -/
def listMax : List Int → Option Int
  | [] => none
  | x :: xs =>
    match listMax xs with
    | none => some x
    | some m => some (max x m)

/-- SQL `MIN` over a column: `none` on the empty list. -/
def listMin : List Int → Option Int
  | [] => none
  | x :: xs =>
    match listMin xs with
    | none => some x
    | some m => some (min x m)

/-! ### Query layer: result-row computations

One pure function per query function of the source, computing the rows the
SQL would return.  Session handling is added by wrappers further down.
-/

/-- Result row of `get_dag_state_info`. -/
structure DagStateRow where
  dag_id : String
  state : Option String
  count : Nat
  owners : String
deriving DecidableEq, Repr

/-- Rows of `get_dag_state_info`: group `DagRun` by `(dag_id, state)` with
`COUNT(state)` (SQL `COUNT` of a column ignores NULLs), then inner-join
`DagModel` on `dag_id` for the owners. -/
def get_dag_state_info_rows (st : Store) : List DagStateRow :=
  (dedupKeys (st.dagRuns.map (fun r => (r.dag_id, r.state)))).flatMap fun k =>
    let grp := st.dagRuns.filter (fun r => r.dag_id = k.1 ∧ r.state = k.2)
    let cnt := (grp.filter (fun r => r.state ≠ none)).length
    (st.dagModels.filter (fun dm => dm.dag_id = k.1)).map fun dm =>
      ⟨k.1, k.2, cnt, dm.owners⟩

/-- Filter of the `max_execution_dt` subqueries: successful runs with a
non-null end date. -/
def dagRunQualifies (r : DagRunRow) : Bool :=
  r.state = some State.SUCCESS ∧ r.end_date ≠ none

/-- The `max_execution_dt_query` subquery shared by `get_dag_duration_info`
and `get_task_duration_info`: per `dag_id`, the maximal `execution_date`
among successful runs with a non-null `end_date`. -/
def maxExecPerDag (st : Store) : List (String × Int) :=
  let qs := st.dagRuns.filter dagRunQualifies
  (dedupKeys (qs.map (·.dag_id))).flatMap fun d =>
    match listMax ((qs.filter (fun r => r.dag_id = d)).map (·.execution_date)) with
    | some m => [(d, m)]
    | none => []

/-- Result row of `get_dag_duration_info`. -/
structure DagDurationRow where
  dag_id : String
  start_date : Option Int
  end_date : Option Int
deriving DecidableEq, Repr

/-- The `dag_start_dt_query` subquery of `get_dag_duration_info`: for each
dag's latest qualifying execution date, `MIN(TaskInstance.start_date)` over
the task instances of that execution (inner join, so dags whose latest run
has no task instances drop out; SQL `MIN` ignores NULL start dates). -/
def dag_start_dt_rows (st : Store) : List (String × Int × Option Int) :=
  (maxExecPerDag st).flatMap fun dm =>
    let tis := st.taskInstances.filter
      (fun ti => ti.dag_id = dm.1 ∧ ti.execution_date = dm.2)
    if tis.isEmpty then []
    else [(dm.1, dm.2, listMin (tis.filterMap (·.start_date)))]

/-- Rows of `get_dag_duration_info`: the `dag_start_dt_query` rows joined
back to `DagRun` on `(dag_id, execution_date)` for the run's `end_date`. -/
def get_dag_duration_info_rows (st : Store) : List DagDurationRow :=
  (dag_start_dt_rows st).flatMap fun row =>
    (st.dagRuns.filter
      (fun dr => dr.dag_id = row.1 ∧ dr.execution_date = row.2.1)).map fun dr =>
      ⟨row.1, row.2.2, dr.end_date⟩

/-- Result row of `get_task_state_info`. -/
structure TaskStateRow where
  dag_id : String
  task_id : String
  state : Option String
  value : Nat
  owners : String
deriving DecidableEq, Repr

/-- Rows of `get_task_state_info`: group `TaskInstance` by
`(dag_id, task_id, state)` with `COUNT(dag_id)` (`dag_id` is never null, so
this is the group size), then inner-join `DagModel` on `dag_id`. -/
def get_task_state_info_rows (st : Store) : List TaskStateRow :=
  (dedupKeys (st.taskInstances.map
      (fun t => (t.dag_id, t.task_id, t.state)))).flatMap fun k =>
    let cnt := (st.taskInstances.filter
      (fun t => t.dag_id = k.1 ∧ t.task_id = k.2.1 ∧ t.state = k.2.2)).length
    (st.dagModels.filter (fun dm => dm.dag_id = k.1)).map fun dm =>
      ⟨k.1, k.2.1, k.2.2, cnt, dm.owners⟩

/-- Result row of `get_task_failure_counts`. -/
structure TaskFailCountRow where
  dag_id : String
  task_id : String
  count : Nat
deriving DecidableEq, Repr

/-- Rows of (the query built by) `get_task_failure_counts`: group `TaskFail`
by `(dag_id, task_id)` with `COUNT(dag_id)` (group size). -/
def get_task_failure_counts_rows (st : Store) : List TaskFailCountRow :=
  (dedupKeys (st.taskFails.map (fun f => (f.dag_id, f.task_id)))).map fun k =>
    ⟨k.1, k.2,
      (st.taskFails.filter (fun f => f.dag_id = k.1 ∧ f.task_id = k.2)).length⟩

/-- Filter of the `task_duration_query` subquery: successful task instances
with non-null start and end dates. -/
def taskInstanceQualifies (ti : TaskInstanceRow) : Bool :=
  ti.state = some State.SUCCESS ∧ ti.start_date ≠ none ∧ ti.end_date ≠ none

/-- The `task_duration_query` subquery of `get_task_duration_info`: per
`(dag_id, task_id)`, the maximal `execution_date` among qualifying task
instances. -/
def maxExecPerTask (st : Store) : List (String × String × Int) :=
  let qs := st.taskInstances.filter taskInstanceQualifies
  (dedupKeys (qs.map (fun ti => (ti.dag_id, ti.task_id)))).flatMap fun k =>
    match listMax ((qs.filter
        (fun ti => ti.dag_id = k.1 ∧ ti.task_id = k.2)).map (·.execution_date)) with
    | some m => [(k.1, k.2, m)]
    | none => []

/-- Result row of `get_task_duration_info`. -/
structure TaskDurationRow where
  dag_id : String
  task_id : String
  start_date : Option Int
  end_date : Option Int
  execution_date : Int
deriving DecidableEq, Repr

/-- Rows of `get_task_duration_info`: the per-task maximal execution dates
are kept only when they equal the dag-level latest successful execution date
(`task_latest_execution_dt` join), then joined back to `TaskInstance` on
`(dag_id, task_id, execution_date)` for the start and end dates. -/
def get_task_duration_info_rows (st : Store) : List TaskDurationRow :=
  let latest := (maxExecPerTask st).filter fun k =>
    (maxExecPerDag st).any (fun dm => dm.1 = k.1 ∧ dm.2 = k.2.2)
  latest.flatMap fun k =>
    (st.taskInstances.filter
      (fun ti => ti.dag_id = k.1 ∧ ti.task_id = k.2.1
        ∧ ti.execution_date = k.2.2)).map fun ti =>
      ⟨k.1, k.2.1, ti.start_date, ti.end_date, k.2.2⟩

/-- Result row of `get_dag_scheduler_delay`. -/
structure DagSchedulerDelayRow where
  dag_id : String
  execution_date : Int
  start_date : Option Int
deriving DecidableEq, Repr

/-- Rows of `get_dag_scheduler_delay`: runs of the canary dag, ordered by
`execution_date` descending, `LIMIT 1`. -/
def get_dag_scheduler_delay_rows (st : Store) : List DagSchedulerDelayRow :=
  let canary := st.dagRuns.filter (fun r => r.dag_id = CANARY_DAG)
  match listMax (canary.map (·.execution_date)) with
  | none => []
  | some m =>
    match canary.find? (fun r => r.execution_date = m) with
    | some r => [⟨r.dag_id, r.execution_date, r.start_date⟩]
    | none => []

/-- Result row of `get_task_scheduler_delay`. -/
structure TaskSchedulerDelayRow where
  queue : String
  execution_date : Int
  queued_dttm : Option Int
  start_date : Option Int
deriving DecidableEq, Repr

/-- The `task_status_query` subquery of `get_task_scheduler_delay`: per
queue, `MAX(start_date)` over canary task instances with a non-null
`queued_dttm` (SQL `MAX` ignores NULL start dates). -/
def taskSchedGroups (st : Store) : List (String × Option Int) :=
  let cq := st.taskInstances.filter
    (fun ti => ti.dag_id = CANARY_DAG ∧ ti.queued_dttm ≠ none)
  (dedupKeys (cq.map (·.queue))).map fun q =>
    (q, listMax ((cq.filter (fun ti => ti.queue = q)).filterMap (·.start_date)))

/-- Rows of `get_task_scheduler_delay`: each queue group is joined back to
the full `TaskInstance` table on `queue` and `start_date = max_start` (SQL
equality: never satisfied when `max_start` is NULL).  Note the join does not
re-filter on `dag_id`, so instances of any dag sharing the queue and start
date are matched. -/
def get_task_scheduler_delay_rows (st : Store) : List TaskSchedulerDelayRow :=
  (taskSchedGroups st).flatMap fun g =>
    match g.2 with
    | none => []
    | some m =>
      (st.taskInstances.filter
        (fun ti => ti.queue = g.1 ∧ ti.start_date = some m)).map fun ti =>
        ⟨g.1, ti.execution_date, ti.queued_dttm, some m⟩

/-- `get_num_queued_tasks`: count of task instances in the queued state. -/
def get_num_queued_tasks_count (st : Store) : Nat :=
  (st.taskInstances.filter (fun ti => ti.state = some State.QUEUED)).length

/-! ### Session events

Each query-layer function runs inside `with session_scope(Session)`, which
closes the session in a `finally` block.  We record the session lifecycle
and the store accesses as an event trace.  A hypothetical write carries the
store mutation it would perform, so that replaying a trace against a store
is well defined; the exporter never emits one. -/

/-- A mutation of the orchestration store (what a write would do).  The
exporter never issues any. -/
inductive StoreWrite
  | insertDagModel (r : DagModelRow)
  | insertDagRun (r : DagRunRow)
  | insertTaskInstance (r : TaskInstanceRow)
  | insertTaskFail (r : TaskFailRow)
deriving DecidableEq, Repr

/-- A session event: session opened, a read (query execution) issued,
session closed, or a write issued. -/
inductive SEvent
  | openS
  | readS
  | closeS
  | writeS (w : StoreWrite)
deriving DecidableEq, Repr

/-- Whether an event is a write. -/
def SEvent.isWrite : SEvent → Bool
  | .writeS _ => true
  | _ => false

/-- Replay a trace of session events against a store: only writes change
it. -/
def runEvents (st : Store) (evs : List SEvent) : Store :=
  evs.foldl
    (fun s e =>
      match e with
      | .writeS (.insertDagModel r) => { s with dagModels := r :: s.dagModels }
      | .writeS (.insertDagRun r) => { s with dagRuns := r :: s.dagRuns }
      | .writeS (.insertTaskInstance r) =>
        { s with taskInstances := r :: s.taskInstances }
      | .writeS (.insertTaskFail r) => { s with taskFails := r :: s.taskFails }
      | _ => s)
    st

/-- `open; read*; close` and nothing else: the reads happen while the
session is open. -/
def scopedTail : List SEvent → Bool
  | [.closeS] => true
  | .readS :: rest => scopedTail rest
  | _ => false

/-- A trace is well scoped when it opens one session, performs its reads
inside it, and closes it at the end. -/
def wellScoped : List SEvent → Bool
  | .openS :: rest => scopedTail rest
  | _ => false

/-! ### Query layer: session wrappers

Every function but `get_task_failure_counts` executes its query inside the
session scope (`.all()` / `.count()`): trace `open, read, close`.
`get_task_failure_counts` returns the un-executed `Query` object (no
`.all()`), so its scope opens and closes without a read; the read happens
when the caller iterates the query. -/

/-- `get_dag_state_info`: rows and session trace. -/
def get_dag_state_info (st : Store) : List DagStateRow × List SEvent :=
  (get_dag_state_info_rows st, [.openS, .readS, .closeS])

/-- `get_dag_duration_info`: rows and session trace. -/
def get_dag_duration_info (st : Store) : List DagDurationRow × List SEvent :=
  (get_dag_duration_info_rows st, [.openS, .readS, .closeS])

/-- `get_task_state_info`: rows and session trace. -/
def get_task_state_info (st : Store) : List TaskStateRow × List SEvent :=
  (get_task_state_info_rows st, [.openS, .readS, .closeS])

/-- The lazy `Query` object returned by `get_task_failure_counts`: it holds
the pending query; iterating it later executes the read against the
store. -/
structure LazyFailQuery where
  store : Store
deriving DecidableEq, Repr

/-- Iterating the lazy query: the read executes now (after the session
scope of `get_task_failure_counts` has already exited). -/
def LazyFailQuery.force (q : LazyFailQuery) :
    List TaskFailCountRow × List SEvent :=
  (get_task_failure_counts_rows q.store, [.readS])

/-- `get_task_failure_counts`: returns the query object without executing
it; the session scope opens and closes with no read inside. -/
def get_task_failure_counts (st : Store) : LazyFailQuery × List SEvent :=
  (⟨st⟩, [.openS, .closeS])

/-- `get_task_duration_info`: rows and session trace. -/
def get_task_duration_info (st : Store) : List TaskDurationRow × List SEvent :=
  (get_task_duration_info_rows st, [.openS, .readS, .closeS])

/-- `get_dag_scheduler_delay`: rows and session trace. -/
def get_dag_scheduler_delay (st : Store) :
    List DagSchedulerDelayRow × List SEvent :=
  (get_dag_scheduler_delay_rows st, [.openS, .readS, .closeS])

/-- `get_task_scheduler_delay`: rows and session trace. -/
def get_task_scheduler_delay (st : Store) :
    List TaskSchedulerDelayRow × List SEvent :=
  (get_task_scheduler_delay_rows st, [.openS, .readS, .closeS])

/-- `get_num_queued_tasks`: count and session trace. -/
def get_num_queued_tasks (st : Store) : Nat × List SEvent :=
  (get_num_queued_tasks_count st, [.openS, .readS, .closeS])

/-! ### Metrics collector -/

/-- An uncaught Python exception inside `collect`. -/
inductive PyErr
  /-- `TypeError`: subtracting `None` from a datetime (a null date column
  reached a duration/delay computation). -/
  | typeError
  /-- `AttributeError`: `add_metric` looked up on a `float` (the gauge
  family variable was rebound to the computed duration). -/
  | attributeError
deriving DecidableEq, Repr

/-- One metric sample: label values (a Python `None` label value is
`none`) and the numeric value. -/
structure Sample where
  labelValues : List (Option String)
  value : Int
deriving DecidableEq, Repr

/-- A `GaugeMetricFamily` as yielded by `collect`. -/
structure GaugeMetricFamily where
  name : String
  documentation : String
  labels : List String
  samples : List Sample
deriving DecidableEq, Repr

/-- Python `state or 'none'`: `None` and the empty string are falsy. -/
def pyStateOrNone (s : Option String) : String :=
  match s with
  | none => "none"
  | some v => if v = "" then "none" else v

/-- One iteration of a duration loop of `collect`.  The loop body first
computes `(end_date - start_date).total_seconds()` — a `TypeError` when
either date is `None` — then rebinds the gauge-family variable to that
float and looks up `.add_metric` on it, an `AttributeError`.  So the first
row always raises; only an empty row list completes the loop (with no
samples ever added). -/
def durationLoop (rows : List (Option Int × Option Int)) :
    Except PyErr (List Sample) :=
  match rows with
  | [] => .ok []
  | (sd, ed) :: _ =>
    match sd, ed with
    | some _, some _ => .error .attributeError
    | _, _ => .error .typeError

/-- Run a loop body over the rows, stopping at the first exception (samples
added before the exception die with the family, which is never yielded). -/
def loopSamples (f : ρ → Except PyErr Sample) : List ρ → Except PyErr (List Sample)
  | [] => .ok []
  | r :: rs =>
    match f r with
    | .error e => .error e
    | .ok s =>
      match loopSamples f rs with
      | .error e => .error e
      | .ok ss => .ok (s :: ss)

/-- Loop body of the dag-scheduler-delay loop:
`(dag.start_date - dag.execution_date).total_seconds()`, label `dag_id`. -/
def dagSchedulerDelaySample (r : DagSchedulerDelayRow) : Except PyErr Sample :=
  match r.start_date with
  | none => .error .typeError
  | some s => .ok ⟨[some r.dag_id], s - r.execution_date⟩

/-- Loop body of the task-scheduler-delay loop:
`(task.start_date - task.queued_dttm).total_seconds()`, label `queue`. -/
def taskSchedulerDelaySample (r : TaskSchedulerDelayRow) : Except PyErr Sample :=
  match r.start_date, r.queued_dttm with
  | some s, some q => .ok ⟨[some r.queue], s - q⟩
  | _, _ => .error .typeError

/-- The `airflow_task_status` family built from the task-state rows: one
sample per row, labels `(dag_id, task_id, owner, status)` with
`task.state or 'none'` as the status label. -/
def taskStatusFamily (st : Store) : GaugeMetricFamily :=
  ⟨"airflow_task_status",
    "Shows the number of task instances with particular status",
    ["dag_id", "task_id", "owner", "status"],
    (get_task_state_info st).1.map fun t =>
      ⟨[some t.dag_id, some t.task_id, some t.owners,
        some (pyStateOrNone t.state)], (t.value : Int)⟩⟩

/-- The `airflow_task_fail_count` family: one sample per failure-count
row. -/
def taskFailCountFamily (rows : List TaskFailCountRow) : GaugeMetricFamily :=
  ⟨"airflow_task_fail_count", "Count of failed tasks", ["dag_id", "task_id"],
    rows.map fun t => ⟨[some t.dag_id, some t.task_id], (t.count : Int)⟩⟩

/-- The `airflow_dag_status` family: one sample per dag-state row, labels
`(dag_id, owner, status)`.  `dag.state` is passed through unmapped: a null
state becomes a `None` label value. -/
def dagStatusFamily (st : Store) : GaugeMetricFamily :=
  ⟨"airflow_dag_status", "Shows the number of dag starts with this status",
    ["dag_id", "owner", "status"],
    (get_dag_state_info st).1.map fun d =>
      ⟨[some d.dag_id, some d.owners, d.state], (d.count : Int)⟩⟩

/-- The `airflow_num_queued_tasks` family: a single unlabelled sample. -/
def numQueuedTasksFamily (n : Nat) : GaugeMetricFamily :=
  ⟨"airflow_num_queued_tasks", "Airflow Number of Queued Tasks", [],
    [⟨[], (n : Int)⟩]⟩

/-- The `airflow_task_duration` family with the samples its loop added. -/
def taskDurationFamily (ss : List Sample) : GaugeMetricFamily :=
  ⟨"airflow_task_duration", "Duration of successful tasks in seconds",
    ["task_id", "dag_id", "execution_date"], ss⟩

/-- The `airflow_dag_run_duration` family with the samples its loop
added. -/
def dagRunDurationFamily (ss : List Sample) : GaugeMetricFamily :=
  ⟨"airflow_dag_run_duration", "Duration of successful dag_runs in seconds",
    ["dag_id"], ss⟩

/-- The `airflow_dag_scheduler_delay` family with its samples. -/
def dagSchedulerDelayFamily (ss : List Sample) : GaugeMetricFamily :=
  ⟨"airflow_dag_scheduler_delay", "Airflow DAG scheduling delay",
    ["dag_id"], ss⟩

/-- The `airflow_task_scheduler_delay` family with its samples. -/
def taskSchedulerDelayFamily (ss : List Sample) : GaugeMetricFamily :=
  ⟨"airflow_task_scheduler_delay", "Airflow Task scheduling delay",
    ["queue"], ss⟩

/-- Outcome of one full iteration of the `collect` generator: the families
yielded before the first uncaught exception, the session-event trace, and
the exception if one was raised. -/
structure CollectResult where
  families : List GaugeMetricFamily
  trace : List SEvent
  err : Option PyErr
deriving DecidableEq, Repr

/-- `MetricsCollector.collect`, run to exhaustion (as the prometheus
registry does): families are yielded in source order; each duration or
delay loop can raise, ending the generator early.  The failure-count query
is iterated (and hence read) right after its session scope has closed. -/
def collect (st : Store) : CollectResult :=
  let tState := taskStatusFamily st
  let fams0 := [tState]
  let tr0 := (get_task_state_info st).2
  let td := get_task_duration_info st
  let tr1 := tr0 ++ td.2
  match durationLoop (td.1.map fun t => (t.start_date, t.end_date)) with
  | .error e => ⟨fams0, tr1, some e⟩
  | .ok tdSamples =>
    let fams1 := fams0 ++ [taskDurationFamily tdSamples]
    let fq := get_task_failure_counts st
    let forced := fq.1.force
    let tr2 := tr1 ++ fq.2 ++ forced.2
    let fams2 := fams1 ++ [taskFailCountFamily forced.1]
    let tr3 := tr2 ++ (get_dag_state_info st).2
    let fams3 := fams2 ++ [dagStatusFamily st]
    let dd := get_dag_duration_info st
    let tr4 := tr3 ++ dd.2
    match durationLoop (dd.1.map fun d => (d.start_date, d.end_date)) with
    | .error e => ⟨fams3, tr4, some e⟩
    | .ok ddSamples =>
      let fams4 := fams3 ++ [dagRunDurationFamily ddSamples]
      let ds := get_dag_scheduler_delay st
      let tr5 := tr4 ++ ds.2
      match loopSamples dagSchedulerDelaySample ds.1 with
      | .error e => ⟨fams4, tr5, some e⟩
      | .ok dsSamples =>
        let fams5 := fams4 ++ [dagSchedulerDelayFamily dsSamples]
        let ts := get_task_scheduler_delay st
        let tr6 := tr5 ++ ts.2
        match loopSamples taskSchedulerDelaySample ts.1 with
        | .error e => ⟨fams5, tr6, some e⟩
        | .ok tsSamples =>
          let fams6 := fams5 ++ [taskSchedulerDelayFamily tsSamples]
          let nq := get_num_queued_tasks st
          ⟨fams6 ++ [numQueuedTasksFamily nq.1], tr6 ++ nq.2, none⟩

/-! ### Well-formedness of the store

Airflow's schema has a unique constraint on `DagRun (dag_id,
execution_date)`; stores violating it are unrepresentable. -/

/-- No two dag runs share `(dag_id, execution_date)`. -/
def wfDagRuns (st : Store) : Prop :=
  (st.dagRuns.map (fun r => (r.dag_id, r.execution_date))).Nodup

instance (st : Store) : Decidable (wfDagRuns st) := by
  unfold wfDagRuns; infer_instance

/-- The store extended with one more dag run. -/
def addDagRun (st : Store) (r : DagRunRow) : Store :=
  { st with dagRuns := r :: st.dagRuns }

/-! ### Helper lemmas -/

theorem mem_dedupKeys_aux [DecidableEq κ] (l : List κ) (acc : List κ) (x : κ) :
    x ∈ l.foldl (fun a k => if k ∈ a then a else a ++ [k]) acc ↔
      x ∈ acc ∨ x ∈ l := by
  induction l generalizing acc with
  | nil => simp
  | cons k ks ih =>
    by_cases hk : k ∈ acc
    · simp only [List.foldl_cons, if_pos hk, ih, List.mem_cons]
      constructor
      · rintro (h | h)
        · exact Or.inl h
        · exact Or.inr (Or.inr h)
      · rintro (h | h | h)
        · exact Or.inl h
        · exact Or.inl (h ▸ hk)
        · exact Or.inr h
    · simp only [List.foldl_cons, if_neg hk, ih, List.mem_append,
        List.mem_singleton, List.mem_cons]
      tauto

theorem mem_dedupKeys [DecidableEq κ] {l : List κ} {x : κ} :
    x ∈ dedupKeys l ↔ x ∈ l := by
  unfold dedupKeys
  rw [mem_dedupKeys_aux]
  simp

theorem listMax_mem {l : List Int} {m : Int} (h : listMax l = some m) :
    m ∈ l := by
  induction l generalizing m with
  | nil => simp [listMax] at h
  | cons x xs ih =>
    rw [listMax] at h
    cases hxs : listMax xs with
    | none => rw [hxs] at h; simp at h; simp [h]
    | some m2 =>
      rw [hxs] at h
      simp only [Option.some.injEq] at h
      rcases max_choice x m2 with hc | hc
      · rw [hc] at h; simp [h]
      · rw [hc] at h; exact List.mem_cons_of_mem _ (ih (h ▸ hxs))

theorem le_listMax {l : List Int} {m : Int} (h : listMax l = some m) :
    ∀ x ∈ l, x ≤ m := by
  induction l generalizing m with
  | nil => simp
  | cons y ys ih =>
    rw [listMax] at h
    cases hys : listMax ys with
    | none =>
      rw [hys] at h
      simp only [Option.some.injEq] at h
      cases hys2 : ys with
      | nil => simp [← h]
      | cons z zs => rw [hys2, listMax] at hys; cases hz : listMax zs <;>
          rw [hz] at hys <;> simp at hys
    | some m2 =>
      rw [hys] at h
      simp only [Option.some.injEq] at h
      intro x hx
      rcases List.mem_cons.mp hx with rfl | hx2
      · rw [← h]; exact le_max_left x m2
      · calc x ≤ m2 := ih hys x hx2
          _ ≤ m := h ▸ le_max_right y m2

theorem flatMap_congr {l : List α} {f g : α → List β}
    (h : ∀ a ∈ l, f a = g a) : l.flatMap f = l.flatMap g := by
  induction l with
  | nil => rfl
  | cons a as ih =>
    simp only [List.flatMap_cons, h a (List.mem_cons_self a as)]
    rw [ih fun b hb => h b (List.mem_cons_of_mem a hb)]

/-- A nonempty duration loop always raises on its first row. -/
theorem durationLoop_ne_nil {rows : List (Option Int × Option Int)}
    (h : rows ≠ []) : ∃ e, durationLoop rows = .error e := by
  cases rows with
  | nil => exact absurd rfl h
  | cons r rs =>
    rcases r with ⟨_ | sd, _ | ed⟩
    · exact ⟨.typeError, rfl⟩
    · exact ⟨.typeError, rfl⟩
    · exact ⟨.typeError, rfl⟩
    · exact ⟨.attributeError, rfl⟩

/-- A duration loop only completes on an empty row list, with no samples. -/
theorem durationLoop_ok {rows : List (Option Int × Option Int)}
    {ss : List Sample} (h : durationLoop rows = .ok ss) :
    rows = [] ∧ ss = [] := by
  cases rows with
  | nil => simp only [durationLoop] at h; cases h; exact ⟨rfl, rfl⟩
  | cons r rs =>
    rcases r with ⟨_ | sd, _ | ed⟩ <;> simp [durationLoop] at h

/-- A loop completes when the body succeeds on every row. -/
theorem loopSamples_ok {f : ρ → Except PyErr Sample} {rows : List ρ}
    (h : ∀ r ∈ rows, ∃ s, f r = .ok s) :
    ∃ ss, loopSamples f rows = .ok ss := by
  induction rows with
  | nil => exact ⟨[], rfl⟩
  | cons r rs ih =>
    obtain ⟨s, hs⟩ := h r (List.mem_cons_self r rs)
    obtain ⟨ss, hss⟩ := ih fun x hx => h x (List.mem_cons_of_mem r hx)
    exact ⟨s :: ss, by rw [loopSamples, hs, hss]⟩

/-- Replaying the trace of a full scrape leaves the store unchanged (the
trace contains no write events). -/
theorem runEvents_collect_trace (st : Store) :
    runEvents st (collect st).trace = st := by
  unfold collect
  dsimp only
  split
  · rfl
  · split
    · rfl
    · split
      · rfl
      · split
        · rfl
        · rfl

/-- The trace of a full scrape contains no write events. -/
theorem collect_trace_noWrites (st : Store) :
    ((collect st).trace.all fun e => !e.isWrite) = true := by
  unfold collect
  dsimp only
  split
  · rfl
  · split
    · rfl
    · split
      · rfl
      · split
        · rfl
        · rfl

/-- Membership in `maxExecPerDag` means: some qualifying run of that dag
attains the date, and every qualifying run of that dag is no later. -/
theorem mem_maxExecPerDag {st : Store} {d : String} {m : Int}
    (h : (d, m) ∈ maxExecPerDag st) :
    (∃ r ∈ st.dagRuns, dagRunQualifies r ∧ r.dag_id = d ∧ r.execution_date = m)
      ∧ ∀ r ∈ st.dagRuns, dagRunQualifies r → r.dag_id = d →
        r.execution_date ≤ m := by
  unfold maxExecPerDag at h
  rw [List.mem_flatMap] at h
  obtain ⟨d2, _, hmem⟩ := h
  cases hmax : listMax (((st.dagRuns.filter dagRunQualifies).filter
      (fun r => r.dag_id = d2)).map (·.execution_date)) with
  | none => rw [hmax] at hmem; simp at hmem
  | some m2 =>
    rw [hmax] at hmem
    simp only [List.mem_singleton, Prod.mk.injEq] at hmem
    obtain ⟨rfl, rfl⟩ := hmem
    constructor
    · have hm := listMax_mem hmax
      rw [List.mem_map] at hm
      obtain ⟨r, hr, hre⟩ := hm
      rw [List.mem_filter] at hr
      obtain ⟨hr2, hrd⟩ := hr
      rw [List.mem_filter] at hr2
      exact ⟨r, hr2.1, hr2.2, by simpa using hrd, hre⟩
    · intro r hr hq hd
      refine le_listMax hmax r.execution_date ?_
      rw [List.mem_map]
      refine ⟨r, ?_, rfl⟩
      rw [List.mem_filter, List.mem_filter]
      exact ⟨⟨hr, hq⟩, by simpa using hd⟩

/-- Each `dag_start_dt_query` row's `(dag_id, execution_date)` comes from
`maxExecPerDag`. -/
theorem mem_dag_start_dt {st : Store} {row : String × Int × Option Int}
    (h : row ∈ dag_start_dt_rows st) : (row.1, row.2.1) ∈ maxExecPerDag st := by
  unfold dag_start_dt_rows at h
  rw [List.mem_flatMap] at h
  obtain ⟨dm, hdm, hmem⟩ := h
  dsimp only at hmem
  split at hmem
  · simp at hmem
  · rw [List.mem_singleton] at hmem
    subst hmem
    exact hdm

/-- Adding a non-qualifying run does not change `maxExecPerDag`. -/
theorem maxExecPerDag_addDagRun {st : Store} {r0 : DagRunRow}
    (h : dagRunQualifies r0 = false) :
    maxExecPerDag (addDagRun st r0) = maxExecPerDag st := by
  unfold maxExecPerDag addDagRun
  simp [List.filter_cons, h]

/-- Adding a non-qualifying run does not change `dag_start_dt_query`. -/
theorem dag_start_dt_addDagRun {st : Store} {r0 : DagRunRow}
    (h : dagRunQualifies r0 = false) :
    dag_start_dt_rows (addDagRun st r0) = dag_start_dt_rows st := by
  unfold dag_start_dt_rows
  rw [maxExecPerDag_addDagRun h]
  rfl

/-- Adding a run that is not successful or has no end date leaves the
dag-duration query's result unchanged (provided the extended store still
satisfies the `(dag_id, execution_date)` uniqueness of the schema). -/
theorem dag_duration_addDagRun {st : Store} {r0 : DagRunRow}
    (h : dagRunQualifies r0 = false)
    (hwf : wfDagRuns (addDagRun st r0)) :
    get_dag_duration_info_rows (addDagRun st r0)
      = get_dag_duration_info_rows st := by
  unfold get_dag_duration_info_rows
  rw [dag_start_dt_addDagRun h]
  refine flatMap_congr fun row hrow => ?_
  have hkey := mem_dag_start_dt hrow
  have hex := (mem_maxExecPerDag hkey).1
  obtain ⟨r1, hr1, hq1, hd1, he1⟩ := hex
  show ((addDagRun st r0).dagRuns.filter _).map _ = _
  unfold addDagRun
  dsimp only
  rw [List.filter_cons_of_neg]
  intro hc
  simp only [decide_eq_true_eq] at hc
  unfold wfDagRuns addDagRun at hwf
  dsimp only at hwf
  rw [List.map_cons, List.nodup_cons] at hwf
  exact hwf.1 (by
    rw [List.mem_map]
    exact ⟨r1, hr1, by rw [hd1, he1, hc.1, hc.2]⟩)

/-- Under the schema's uniqueness constraint, the `end_date` of each
dag-duration row comes from a successful run with a non-null end date whose
execution date is the dag's latest qualifying one. -/
theorem dag_duration_end_from_qualifying {st : Store} (hwf : wfDagRuns st) :
    ∀ row ∈ get_dag_duration_info_rows st, ∃ r ∈ st.dagRuns,
      dagRunQualifies r ∧ r.dag_id = row.dag_id ∧ r.end_date = row.end_date
        ∧ (row.dag_id, r.execution_date) ∈ maxExecPerDag st := by
  intro row hrow
  unfold get_dag_duration_info_rows at hrow
  rw [List.mem_flatMap] at hrow
  obtain ⟨s2, hs2, hmem⟩ := hrow
  rw [List.mem_map] at hmem
  obtain ⟨dr, hdr, hre⟩ := hmem
  rw [List.mem_filter] at hdr
  obtain ⟨hdr1, hdr2⟩ := hdr
  simp only [decide_eq_true_eq] at hdr2
  have hkey := mem_dag_start_dt hs2
  obtain ⟨r1, hr1, hq1, hd1, he1⟩ := (mem_maxExecPerDag hkey).1
  have hdreq : dr = r1 := by
    refine List.inj_on_of_nodup_map hwf hdr1 hr1 ?_
    show (dr.dag_id, dr.execution_date) = (r1.dag_id, r1.execution_date)
    rw [hdr2.1, hdr2.2, hd1, he1]
  subst hdreq
  refine ⟨dr, hdr1, hq1, ?_, ?_, ?_⟩
  · rw [← hre]; exact hdr2.1
  · rw [← hre]
  · rw [← hre]
    show (s2.1, dr.execution_date) ∈ maxExecPerDag st
    rw [hdr2.2]
    exact hkey

/-- Each task-scheduler-delay row's queue and start date form one of the
canary-derived queue groups, and its start date is non-null. -/
theorem mem_task_sched_rows {st : Store} {r : TaskSchedulerDelayRow}
    (h : r ∈ get_task_scheduler_delay_rows st) :
    (r.queue, r.start_date) ∈ taskSchedGroups st ∧ r.start_date ≠ none
      ∧ ∃ ti ∈ st.taskInstances, ti.queue = r.queue
        ∧ ti.start_date = r.start_date ∧ ti.execution_date = r.execution_date
        ∧ ti.queued_dttm = r.queued_dttm := by
  unfold get_task_scheduler_delay_rows at h
  rw [List.mem_flatMap] at h
  obtain ⟨g, hg, hmem⟩ := h
  cases hg2 : g.2 with
  | none => rw [hg2] at hmem; simp at hmem
  | some m =>
    rw [hg2] at hmem
    rw [List.mem_map] at hmem
    obtain ⟨ti, hti, hre⟩ := hmem
    rw [List.mem_filter] at hti
    obtain ⟨hti1, hti2⟩ := hti
    simp only [decide_eq_true_eq] at hti2
    have hqueue : r.queue = g.1 := by rw [← hre]
    have hstart : r.start_date = some m := by rw [← hre]
    refine ⟨?_, by rw [hstart]; exact Option.some_ne_none m, ti, hti1, ?_, ?_, ?_, ?_⟩
    · rw [hqueue, hstart, ← hg2]
      exact hg
    · rw [hqueue]; exact hti2.1
    · rw [hstart]; exact hti2.2
    · rw [← hre]
    · rw [← hre]

/-- Each queue group of the task-scheduler-delay subquery comes from a
canary task instance with a non-null queued time. -/
theorem mem_taskSchedGroups {st : Store} {g : String × Option Int}
    (h : g ∈ taskSchedGroups st) :
    ∃ ti ∈ st.taskInstances, ti.dag_id = CANARY_DAG
      ∧ ti.queued_dttm ≠ none ∧ ti.queue = g.1 := by
  unfold taskSchedGroups at h
  rw [List.mem_map] at h
  obtain ⟨q, hq, hre⟩ := h
  rw [mem_dedupKeys, List.mem_map] at hq
  obtain ⟨ti, hti, hte⟩ := hq
  rw [List.mem_filter] at hti
  obtain ⟨hti1, hti2⟩ := hti
  simp only [decide_eq_true_eq] at hti2
  exact ⟨ti, hti1, hti2.1, hti2.2, by rw [← hre]; exact hte⟩

/-- The single dag-scheduler-delay row (when present) is a canary run. -/
theorem mem_dag_sched_rows {st : Store} {r : DagSchedulerDelayRow}
    (h : r ∈ get_dag_scheduler_delay_rows st) :
    r.dag_id = CANARY_DAG ∧ ∃ run ∈ st.dagRuns, run.dag_id = CANARY_DAG
      ∧ r = ⟨run.dag_id, run.execution_date, run.start_date⟩ := by
  unfold get_dag_scheduler_delay_rows at h
  dsimp only at h
  cases hmax : listMax ((st.dagRuns.filter
      (fun r => r.dag_id = CANARY_DAG)).map (·.execution_date)) with
  | none => rw [hmax] at h; simp at h
  | some m =>
    rw [hmax] at h
    dsimp only at h
    cases hfind : (st.dagRuns.filter (fun r => r.dag_id = CANARY_DAG)).find?
        (fun r => r.execution_date = m) with
    | none => rw [hfind] at h; simp at h
    | some run =>
      rw [hfind] at h
      rw [List.mem_singleton] at h
      have hmemf := List.mem_of_find?_eq_some hfind
      rw [List.mem_filter] at hmemf
      obtain ⟨hrun, hcanary⟩ := hmemf
      simp only [decide_eq_true_eq] at hcanary
      subst h
      exact ⟨hcanary, run, hrun, hcanary, rfl⟩

/-! ### Branch analysis of `collect` -/

/-- Scrape trace up to the task-duration loop. -/
def trTaskDur : List SEvent :=
  [.openS, .readS, .closeS, .openS, .readS, .closeS]

/-- Scrape trace up to the dag-duration loop (the `openS, closeS, readS`
block is the failure-count query: read after close). -/
def trDagDur : List SEvent :=
  trTaskDur ++ [.openS, .closeS, .readS,
    .openS, .readS, .closeS, .openS, .readS, .closeS]

/-- Scrape trace up to the dag-scheduler-delay loop. -/
def trDagSched : List SEvent := trDagDur ++ [.openS, .readS, .closeS]

/-- Scrape trace up to the task-scheduler-delay loop. -/
def trTaskSched : List SEvent := trDagSched ++ [.openS, .readS, .closeS]

/-- The complete scrape trace. -/
def trFull : List SEvent := trTaskSched ++ [.openS, .readS, .closeS]

/-- The first four families, yielded before the dag-duration loop. -/
def firstFourFamilies (st : Store) : List GaugeMetricFamily :=
  [taskStatusFamily st, taskDurationFamily [],
    taskFailCountFamily (get_task_failure_counts_rows st), dagStatusFamily st]

/-- If the task-duration loop raises, `collect` stops after yielding only
the task-status family. -/
theorem collect_taskdur_error {st : Store} {e : PyErr}
    (he : durationLoop ((get_task_duration_info_rows st).map
      fun t => (t.start_date, t.end_date)) = .error e) :
    collect st = ⟨[taskStatusFamily st], trTaskDur, some e⟩ := by
  unfold collect
  simp only [get_task_duration_info, get_task_state_info]
  rw [he]
  rfl

/-- If the task-duration loop completes (empty result) but the dag-duration
loop raises, `collect` stops after yielding four families. -/
theorem collect_dagdur_error {st : Store} {e : PyErr}
    (ht : durationLoop ((get_task_duration_info_rows st).map
      fun t => (t.start_date, t.end_date)) = .ok [])
    (he : durationLoop ((get_dag_duration_info_rows st).map
      fun d => (d.start_date, d.end_date)) = .error e) :
    collect st = ⟨firstFourFamilies st, trDagDur, some e⟩ := by
  unfold collect
  simp only [get_task_duration_info, get_task_state_info,
    get_task_failure_counts, get_dag_state_info, get_dag_duration_info]
  rw [ht, he]
  rfl

/-- If both duration loops complete but the dag-scheduler-delay loop
raises, `collect` stops after yielding five families. -/
theorem collect_dagsched_error {st : Store} {e : PyErr}
    (ht : durationLoop ((get_task_duration_info_rows st).map
      fun t => (t.start_date, t.end_date)) = .ok [])
    (hd : durationLoop ((get_dag_duration_info_rows st).map
      fun d => (d.start_date, d.end_date)) = .ok [])
    (he : loopSamples dagSchedulerDelaySample
      (get_dag_scheduler_delay_rows st) = .error e) :
    collect st = ⟨firstFourFamilies st ++ [dagRunDurationFamily []],
      trDagSched, some e⟩ := by
  unfold collect
  simp only [get_task_duration_info, get_task_state_info,
    get_task_failure_counts, get_dag_state_info, get_dag_duration_info,
    get_dag_scheduler_delay]
  rw [ht, hd, he]
  rfl

/-- If only the task-scheduler-delay loop raises, `collect` stops after
yielding six families. -/
theorem collect_tasksched_error {st : Store} {e : PyErr} {dsS : List Sample}
    (ht : durationLoop ((get_task_duration_info_rows st).map
      fun t => (t.start_date, t.end_date)) = .ok [])
    (hd : durationLoop ((get_dag_duration_info_rows st).map
      fun d => (d.start_date, d.end_date)) = .ok [])
    (hs : loopSamples dagSchedulerDelaySample
      (get_dag_scheduler_delay_rows st) = .ok dsS)
    (he : loopSamples taskSchedulerDelaySample
      (get_task_scheduler_delay_rows st) = .error e) :
    collect st = ⟨firstFourFamilies st ++ [dagRunDurationFamily [],
      dagSchedulerDelayFamily dsS], trTaskSched, some e⟩ := by
  unfold collect
  simp only [get_task_duration_info, get_task_state_info,
    get_task_failure_counts, get_dag_state_info, get_dag_duration_info,
    get_dag_scheduler_delay, get_task_scheduler_delay]
  rw [ht, hd, hs, he]
  rfl

/-- A scrape on which no loop raises yields the eight catalog families. -/
theorem collect_ok {st : Store} {dsS tsS : List Sample}
    (ht : durationLoop ((get_task_duration_info_rows st).map
      fun t => (t.start_date, t.end_date)) = .ok [])
    (hd : durationLoop ((get_dag_duration_info_rows st).map
      fun d => (d.start_date, d.end_date)) = .ok [])
    (hs : loopSamples dagSchedulerDelaySample
      (get_dag_scheduler_delay_rows st) = .ok dsS)
    (hq : loopSamples taskSchedulerDelaySample
      (get_task_scheduler_delay_rows st) = .ok tsS) :
    collect st = ⟨firstFourFamilies st ++ [dagRunDurationFamily [],
      dagSchedulerDelayFamily dsS, taskSchedulerDelayFamily tsS,
      numQueuedTasksFamily (get_num_queued_tasks_count st)],
      trFull, none⟩ := by
  unfold collect
  simp only [get_task_duration_info, get_task_state_info,
    get_task_failure_counts, get_dag_state_info, get_dag_duration_info,
    get_dag_scheduler_delay, get_task_scheduler_delay, get_num_queued_tasks]
  rw [ht, hd, hs, hq]
  rfl

/-- Exhaustive case analysis of a scrape. -/
theorem collect_cases (st : Store) :
    (∃ e, collect st = ⟨[taskStatusFamily st], trTaskDur, some e⟩)
    ∨ (∃ e, collect st = ⟨firstFourFamilies st, trDagDur, some e⟩)
    ∨ (∃ e, collect st = ⟨firstFourFamilies st ++ [dagRunDurationFamily []],
        trDagSched, some e⟩)
    ∨ (∃ e dsS, collect st = ⟨firstFourFamilies st ++ [dagRunDurationFamily [],
        dagSchedulerDelayFamily dsS], trTaskSched, some e⟩)
    ∨ (∃ dsS tsS, collect st = ⟨firstFourFamilies st ++
        [dagRunDurationFamily [], dagSchedulerDelayFamily dsS,
          taskSchedulerDelayFamily tsS,
          numQueuedTasksFamily (get_num_queued_tasks_count st)],
        trFull, none⟩) := by
  cases ht : durationLoop ((get_task_duration_info_rows st).map
      fun t => (t.start_date, t.end_date)) with
  | error e => exact Or.inl ⟨e, collect_taskdur_error ht⟩
  | ok tdS =>
    obtain ⟨-, rfl⟩ := durationLoop_ok ht
    cases hd : durationLoop ((get_dag_duration_info_rows st).map
        fun d => (d.start_date, d.end_date)) with
    | error e => exact Or.inr (Or.inl ⟨e, collect_dagdur_error ht hd⟩)
    | ok ddS =>
      obtain ⟨-, rfl⟩ := durationLoop_ok hd
      cases hs : loopSamples dagSchedulerDelaySample
          (get_dag_scheduler_delay_rows st) with
      | error e =>
        exact Or.inr (Or.inr (Or.inl ⟨e, collect_dagsched_error ht hd hs⟩))
      | ok dsS =>
        cases hq : loopSamples taskSchedulerDelaySample
            (get_task_scheduler_delay_rows st) with
        | error e =>
          exact Or.inr (Or.inr (Or.inr (Or.inl
            ⟨e, dsS, collect_tasksched_error ht hd hs hq⟩)))
        | ok tsS =>
          exact Or.inr (Or.inr (Or.inr (Or.inr
            ⟨dsS, tsS, collect_ok ht hd hs hq⟩)))

/-! ### Concrete stores used as witnesses and counterexamples -/

/-- A store with one dag, one successful run and one successful task
instance: both duration queries return a row. -/
def c1Store : Store :=
  ⟨[⟨"d", "own"⟩],
   [⟨"d", some "success", 5, some 0, some 10⟩],
   [⟨"d", "t", some "success", "default", 5, some 1, some 9, none⟩],
   []⟩

/-- A store whose canary task instance (queue `q`, started at 100, queued
at 10) shares queue and start date with a task instance of dag `other`
(queued at 90). -/
def c3Store : Store :=
  ⟨[], [],
   [⟨"canary_dag", "ct", some "success", "q", 100, some 100, none, some 10⟩,
    ⟨"other", "ot", none, "q", 200, some 100, none, some 90⟩],
   []⟩

/-- A store with one canary run and one canary task instance. -/
def c3wStore : Store :=
  ⟨[],
   [⟨"canary_dag", none, 50, some 60, none⟩],
   [⟨"canary_dag", "ct", none, "q", 100, some 100, none, some 10⟩],
   []⟩

/-- A store with a single dag run whose state is NULL. -/
def c4Store : Store :=
  ⟨[⟨"d", "own"⟩], [⟨"d", none, 0, none, none⟩], [], []⟩

/-- `c1Store` plus one queued task instance. -/
def c6Store : Store :=
  ⟨[⟨"d", "own"⟩],
   [⟨"d", some "success", 5, some 0, some 10⟩],
   [⟨"d", "t", some "success", "default", 5, some 1, some 9, none⟩,
    ⟨"d", "t2", some "queued", "default", 5, none, none, none⟩],
   []⟩

/-- A store with one queued task instance and nothing that makes a loop of
`collect` raise. -/
def c6wStore : Store :=
  ⟨[], [], [⟨"d", "t", some "queued", "q", 0, none, none, none⟩], []⟩

/-- A store whose dag `d` has a successful ended run at execution date 5
and a more recent failed run at execution date 7. -/
def c7Store : Store :=
  ⟨[⟨"d", "own"⟩],
   [⟨"d", some "success", 5, some 0, some 10⟩,
    ⟨"d", some "failed", 7, some 0, none⟩],
   [⟨"d", "t", some "success", "default", 5, some 1, some 9, none⟩],
   []⟩

/-! ### The claims -/

/-- C1.  The claim reads: every duration sample's value is
`(end_date - start_date)` in seconds, and a row with `end_date <
start_date` makes the collection raise rather than emit a negative value.
The code instead raises on every duration row — the gauge-family variable
is rebound to the computed float and `add_metric` is looked up on that
float — so on a store with an ordinary successful run (end 9 > start 1) no
duration sample is emitted at all and the scrape fails with an
`AttributeError`. -/
theorem duration_loop_crash_eval :
    get_task_duration_info_rows c1Store
        = [⟨"d", "t", some 1, some 9, 5⟩]
      ∧ (collect c1Store).err = some PyErr.attributeError
      ∧ (collect c1Store).families.map (fun f => f.name)
        = ["airflow_task_status"] := by
  decide

/-- C2.  Whenever the task-duration query returns a row, `collect` raises
after yielding only the task-status family; whenever the dag-duration query
returns a row, `collect` raises having yielded at most the first four
families; and no family named `airflow_task_duration` or
`airflow_dag_run_duration` ever carries a sample. -/
theorem collect_raises_on_duration_rows (st : Store) :
    (get_task_duration_info_rows st ≠ [] →
      (collect st).families = [taskStatusFamily st]
        ∧ (collect st).err ≠ none)
    ∧ (get_dag_duration_info_rows st ≠ [] →
      (collect st).err ≠ none ∧ (collect st).families.length ≤ 4)
    ∧ (∀ fam ∈ (collect st).families,
        fam.name = "airflow_task_duration"
          ∨ fam.name = "airflow_dag_run_duration" →
        fam.samples = []) := by
  refine ⟨?_, ?_, ?_⟩
  · intro h
    have hmap : (get_task_duration_info_rows st).map
        (fun t => (t.start_date, t.end_date)) ≠ [] := by
      simpa using h
    obtain ⟨e, he⟩ := durationLoop_ne_nil hmap
    rw [collect_taskdur_error he]
    exact ⟨rfl, by simp⟩
  · intro h
    cases ht : durationLoop ((get_task_duration_info_rows st).map
        fun t => (t.start_date, t.end_date)) with
    | error e =>
      rw [collect_taskdur_error ht]
      exact ⟨by simp, by simp⟩
    | ok tdS =>
      obtain ⟨-, rfl⟩ := durationLoop_ok ht
      have hmap : (get_dag_duration_info_rows st).map
          (fun d => (d.start_date, d.end_date)) ≠ [] := by
        simpa using h
      obtain ⟨e, he⟩ := durationLoop_ne_nil hmap
      rw [collect_dagdur_error ht he]
      exact ⟨by simp, by simp [firstFourFamilies]⟩
  · intro fam hfam hname
    rcases collect_cases st with ⟨e, hc⟩ | ⟨e, hc⟩ | ⟨e, hc⟩
      | ⟨e, dsS, hc⟩ | ⟨dsS, tsS, hc⟩ <;>
      rw [hc] at hfam <;>
      simp only [firstFourFamilies, List.mem_cons, List.mem_append,
        List.mem_singleton, List.not_mem_nil, or_false,
        List.cons_append, List.nil_append] at hfam
    · subst hfam
      rcases hname with h | h <;>
          simp [taskStatusFamily, taskFailCountFamily, dagStatusFamily,
            dagSchedulerDelayFamily, taskSchedulerDelayFamily,
            numQueuedTasksFamily] at h
    · rcases hfam with rfl | rfl | rfl | rfl
      · rcases hname with h | h <;>
          simp [taskStatusFamily, taskFailCountFamily, dagStatusFamily,
            dagSchedulerDelayFamily, taskSchedulerDelayFamily,
            numQueuedTasksFamily] at h
      · rfl
      · rcases hname with h | h <;>
          simp [taskStatusFamily, taskFailCountFamily, dagStatusFamily,
            dagSchedulerDelayFamily, taskSchedulerDelayFamily,
            numQueuedTasksFamily] at h
      · rcases hname with h | h <;>
          simp [taskStatusFamily, taskFailCountFamily, dagStatusFamily,
            dagSchedulerDelayFamily, taskSchedulerDelayFamily,
            numQueuedTasksFamily] at h
    · rcases hfam with rfl | rfl | rfl | rfl | rfl
      · rcases hname with h | h <;>
          simp [taskStatusFamily, taskFailCountFamily, dagStatusFamily,
            dagSchedulerDelayFamily, taskSchedulerDelayFamily,
            numQueuedTasksFamily] at h
      · rfl
      · rcases hname with h | h <;>
          simp [taskStatusFamily, taskFailCountFamily, dagStatusFamily,
            dagSchedulerDelayFamily, taskSchedulerDelayFamily,
            numQueuedTasksFamily] at h
      · rcases hname with h | h <;>
          simp [taskStatusFamily, taskFailCountFamily, dagStatusFamily,
            dagSchedulerDelayFamily, taskSchedulerDelayFamily,
            numQueuedTasksFamily] at h
      · rfl
    · rcases hfam with rfl | rfl | rfl | rfl | rfl | rfl
      · rcases hname with h | h <;>
          simp [taskStatusFamily, taskFailCountFamily, dagStatusFamily,
            dagSchedulerDelayFamily, taskSchedulerDelayFamily,
            numQueuedTasksFamily] at h
      · rfl
      · rcases hname with h | h <;>
          simp [taskStatusFamily, taskFailCountFamily, dagStatusFamily,
            dagSchedulerDelayFamily, taskSchedulerDelayFamily,
            numQueuedTasksFamily] at h
      · rcases hname with h | h <;>
          simp [taskStatusFamily, taskFailCountFamily, dagStatusFamily,
            dagSchedulerDelayFamily, taskSchedulerDelayFamily,
            numQueuedTasksFamily] at h
      · rfl
      · rcases hname with h | h <;>
          simp [taskStatusFamily, taskFailCountFamily, dagStatusFamily,
            dagSchedulerDelayFamily, taskSchedulerDelayFamily,
            numQueuedTasksFamily] at h
    · rcases hfam with rfl | rfl | rfl | rfl | rfl | rfl | rfl | rfl
      · rcases hname with h | h <;>
          simp [taskStatusFamily, taskFailCountFamily, dagStatusFamily,
            dagSchedulerDelayFamily, taskSchedulerDelayFamily,
            numQueuedTasksFamily] at h
      · rfl
      · rcases hname with h | h <;>
          simp [taskStatusFamily, taskFailCountFamily, dagStatusFamily,
            dagSchedulerDelayFamily, taskSchedulerDelayFamily,
            numQueuedTasksFamily] at h
      · rcases hname with h | h <;>
          simp [taskStatusFamily, taskFailCountFamily, dagStatusFamily,
            dagSchedulerDelayFamily, taskSchedulerDelayFamily,
            numQueuedTasksFamily] at h
      · rfl
      · rcases hname with h | h <;>
          simp [taskStatusFamily, taskFailCountFamily, dagStatusFamily,
            dagSchedulerDelayFamily, taskSchedulerDelayFamily,
            numQueuedTasksFamily] at h
      · rcases hname with h | h <;>
          simp [taskStatusFamily, taskFailCountFamily, dagStatusFamily,
            dagSchedulerDelayFamily, taskSchedulerDelayFamily,
            numQueuedTasksFamily] at h
      · rcases hname with h | h <;>
          simp [taskStatusFamily, taskFailCountFamily, dagStatusFamily,
            dagSchedulerDelayFamily, taskSchedulerDelayFamily,
            numQueuedTasksFamily] at h

/-- Witness for C2: on `c1Store` both duration queries are nonempty, the
scrape raises after the first family, and on the empty store the
task-duration family is present with no samples. -/
theorem collect_raises_on_duration_rows_witness :
    ((collect c1Store).families = [taskStatusFamily c1Store]
      ∧ (collect c1Store).err ≠ none)
    ∧ ((collect c1Store).err ≠ none
      ∧ (collect c1Store).families.length ≤ 4)
    ∧ (taskDurationFamily []).samples = [] := by
  have h := collect_raises_on_duration_rows c1Store
  have h2 := collect_raises_on_duration_rows emptyStore
  exact ⟨h.1 (by decide), h.2.1 (by decide),
    h2.2.2 (taskDurationFamily []) (by decide) (Or.inl rfl)⟩

/-- C3 (corrected).  The dag-level scheduler-delay rows are always canary
runs; the task-level queue groups (queue and maximal start date) always
derive from canary task instances with a non-null queued time — but the
join back to `TaskInstance` is only on queue and start date, so rows of
other workflows can still contribute (see the counterexample). -/
theorem scheduler_delay_canary_scoped (st : Store) :
    (∀ r ∈ get_dag_scheduler_delay_rows st,
      r.dag_id = CANARY_DAG ∧ ∃ run ∈ st.dagRuns, run.dag_id = CANARY_DAG
        ∧ r = ⟨run.dag_id, run.execution_date, run.start_date⟩)
    ∧ (∀ r ∈ get_task_scheduler_delay_rows st,
      (r.queue, r.start_date) ∈ taskSchedGroups st ∧ r.start_date ≠ none
        ∧ ∃ ti ∈ st.taskInstances, ti.dag_id = CANARY_DAG
          ∧ ti.queued_dttm ≠ none ∧ ti.queue = r.queue) := by
  constructor
  · intro r hr
    exact mem_dag_sched_rows hr
  · intro r hr
    obtain ⟨hg, hne, -⟩ := mem_task_sched_rows hr
    obtain ⟨ti, hti, hc, hq, hqu⟩ := mem_taskSchedGroups hg
    exact ⟨hg, hne, ti, hti, hc, hq, hqu⟩

/-- Witness for C3's theorem, on a store with one canary run and one canary
task instance. -/
theorem scheduler_delay_canary_scoped_witness :
    ((⟨"canary_dag", 50, some 60⟩ : DagSchedulerDelayRow).dag_id = CANARY_DAG
      ∧ ∃ run ∈ c3wStore.dagRuns, run.dag_id = CANARY_DAG
        ∧ (⟨"canary_dag", 50, some 60⟩ : DagSchedulerDelayRow)
          = ⟨run.dag_id, run.execution_date, run.start_date⟩)
    ∧ ((("q", some 100) : String × Option Int) ∈ taskSchedGroups c3wStore
      ∧ (some 100 : Option Int) ≠ none
      ∧ ∃ ti ∈ c3wStore.taskInstances, ti.dag_id = CANARY_DAG
        ∧ ti.queued_dttm ≠ none ∧ ti.queue = "q") := by
  have h := scheduler_delay_canary_scoped c3wStore
  exact ⟨h.1 ⟨"canary_dag", 50, some 60⟩ (by decide),
    h.2 ⟨"q", 100, some 10, some 100⟩ (by decide)⟩

/-- Counterexample to C3 as stated: on `c3Store` the task-scheduler-delay
query returns a row whose queued time (90) belongs only to a task instance
of dag `other`, and the emitted family carries the sample 100 − 90 = 10
derived from it. -/
theorem canary_scoping_counterexample :
    (∃ r ∈ get_task_scheduler_delay_rows c3Store, r.queued_dttm = some 90)
    ∧ (∀ ti ∈ c3Store.taskInstances,
        ti.queued_dttm = some 90 → ti.dag_id ≠ CANARY_DAG)
    ∧ (collect c3Store).families[6]?
      = some (taskSchedulerDelayFamily
          [⟨[some "q"], 90⟩, ⟨[some "q"], 10⟩]) := by
  decide

/-- C4 (corrected).  The task-status family is always the first family
yielded and carries exactly one sample per task-status row, with labels
`(dag_id, task_id, owner, status)`, the row's count as value and a NULL
state mapped to the literal `"none"`.  The dag-status family also carries
one sample per row, but passes the state through unmapped. -/
theorem task_status_samples_per_row (st : Store) :
    (collect st).families.head? = some (taskStatusFamily st)
    ∧ (taskStatusFamily st).samples = (get_task_state_info_rows st).map
        (fun r => ⟨[some r.dag_id, some r.task_id, some r.owners,
          some (pyStateOrNone r.state)], (r.value : Int)⟩)
    ∧ (dagStatusFamily st).samples = (get_dag_state_info_rows st).map
        (fun r => ⟨[some r.dag_id, some r.owners, r.state], (r.count : Int)⟩)
    ∧ pyStateOrNone none = "none" := by
  refine ⟨?_, rfl, rfl, rfl⟩
  rcases collect_cases st with ⟨e, hc⟩ | ⟨e, hc⟩ | ⟨e, hc⟩
    | ⟨e, dsS, hc⟩ | ⟨dsS, tsS, hc⟩ <;> rw [hc] <;> rfl

/-- Counterexample to C4's generalisation: on `c4Store` the dag-level
state-count row has a NULL state, and the emitted dag-status sample's
status label value is the Python `None`, not the sentinel `"none"`. -/
theorem dag_status_null_state_counterexample :
    get_dag_state_info_rows c4Store = [⟨"d", none, 0, "own"⟩]
    ∧ (collect c4Store).families[3]? = some (dagStatusFamily c4Store)
    ∧ (dagStatusFamily c4Store).samples = [⟨[some "d", some "own", none], 0⟩]
    ∧ (none : Option String) ≠ some "none" := by
  decide

/-- C5 (corrected).  On a store where neither duration query returns a row
and the scheduler-delay rows have non-null start/queued dates, `collect`
completes and yields exactly the eight catalog families in catalog order
with the catalog's label schemas — but named with the `airflow_` prefix
rather than the catalog's `workflow_` prefix. -/
theorem catalog_families_of_benign_store (st : Store)
    (h1 : get_task_duration_info_rows st = [])
    (h2 : get_dag_duration_info_rows st = [])
    (h3 : ∀ r ∈ get_dag_scheduler_delay_rows st, r.start_date ≠ none)
    (h4 : ∀ r ∈ get_task_scheduler_delay_rows st, r.queued_dttm ≠ none) :
    (collect st).err = none
    ∧ (collect st).families.map (fun f => (f.name, f.labels)) =
      [("airflow_task_status", ["dag_id", "task_id", "owner", "status"]),
       ("airflow_task_duration", ["task_id", "dag_id", "execution_date"]),
       ("airflow_task_fail_count", ["dag_id", "task_id"]),
       ("airflow_dag_status", ["dag_id", "owner", "status"]),
       ("airflow_dag_run_duration", ["dag_id"]),
       ("airflow_dag_scheduler_delay", ["dag_id"]),
       ("airflow_task_scheduler_delay", ["queue"]),
       ("airflow_num_queued_tasks", ([] : List String))] := by
  have ht : durationLoop ((get_task_duration_info_rows st).map
      fun t => (t.start_date, t.end_date)) = .ok [] := by
    rw [h1]; rfl
  have hd : durationLoop ((get_dag_duration_info_rows st).map
      fun d => (d.start_date, d.end_date)) = .ok [] := by
    rw [h2]; rfl
  have hds : ∀ r ∈ get_dag_scheduler_delay_rows st,
      ∃ s, dagSchedulerDelaySample r = .ok s := by
    intro r hr
    cases hst : r.start_date with
    | none => exact absurd hst (h3 r hr)
    | some s =>
      exact ⟨⟨[some r.dag_id], s - r.execution_date⟩,
        by rw [dagSchedulerDelaySample, hst]⟩
  have hts : ∀ r ∈ get_task_scheduler_delay_rows st,
      ∃ s, taskSchedulerDelaySample r = .ok s := by
    intro r hr
    obtain ⟨-, hne, -⟩ := mem_task_sched_rows hr
    cases hst : r.start_date with
    | none => exact absurd hst hne
    | some s =>
      cases hqd : r.queued_dttm with
      | none => exact absurd hqd (h4 r hr)
      | some q =>
        exact ⟨⟨[some r.queue], s - q⟩,
          by rw [taskSchedulerDelaySample, hst, hqd]⟩
  obtain ⟨dsS, hs⟩ := loopSamples_ok hds
  obtain ⟨tsS, hq⟩ := loopSamples_ok hts
  rw [collect_ok ht hd hs hq]
  exact ⟨rfl, rfl⟩

/-- Witness for C5's theorem at the empty store. -/
theorem catalog_families_witness :
    (collect emptyStore).err = none
    ∧ (collect emptyStore).families.map (fun f => (f.name, f.labels)) =
      [("airflow_task_status", ["dag_id", "task_id", "owner", "status"]),
       ("airflow_task_duration", ["task_id", "dag_id", "execution_date"]),
       ("airflow_task_fail_count", ["dag_id", "task_id"]),
       ("airflow_dag_status", ["dag_id", "owner", "status"]),
       ("airflow_dag_run_duration", ["dag_id"]),
       ("airflow_dag_scheduler_delay", ["dag_id"]),
       ("airflow_task_scheduler_delay", ["queue"]),
       ("airflow_num_queued_tasks", ([] : List String))] :=
  catalog_families_of_benign_store emptyStore (by decide) (by decide)
    (by decide) (by decide)

/-- Counterexample to C5 as stated: on `c1Store` a scrape yields a single
family, not eight, and even a completed scrape names its families with the
`airflow_` prefix, so no family named `workflow_task_status` exists. -/
theorem catalog_families_counterexample :
    (collect c1Store).families.length = 1
    ∧ (1 : Nat) ≠ 8
    ∧ (collect emptyStore).families.map (fun f => f.name) =
      ["airflow_task_status", "airflow_task_duration",
       "airflow_task_fail_count", "airflow_dag_status",
       "airflow_dag_run_duration", "airflow_dag_scheduler_delay",
       "airflow_task_scheduler_delay", "airflow_num_queued_tasks"]
    ∧ "airflow_task_status" ≠ "workflow_task_status" := by
  decide

/-- C6 (corrected).  On the empty store a scrape completes and yields all
eight catalog families, each with zero samples except
`airflow_num_queued_tasks`, which carries exactly one unlabelled sample of
value 0.  On every store on which the scrape completes, the last family is
the queued-task count with exactly one unlabelled sample whose value is the
number of queued task instances (on crashing stores it is never emitted —
see the counterexample). -/
theorem empty_store_and_queued_family :
    collect emptyStore = ⟨[taskStatusFamily emptyStore,
        taskDurationFamily [], taskFailCountFamily [],
        dagStatusFamily emptyStore, dagRunDurationFamily [],
        dagSchedulerDelayFamily [], taskSchedulerDelayFamily [],
        numQueuedTasksFamily 0], trFull, none⟩
    ∧ (∀ f ∈ (collect emptyStore).families,
        f.name ≠ "airflow_num_queued_tasks" → f.samples = [])
    ∧ numQueuedTasksFamily 0
      = ⟨"airflow_num_queued_tasks", "Airflow Number of Queued Tasks",
          [], [⟨[], 0⟩]⟩
    ∧ ∀ st, (collect st).err = none →
        (collect st).families.getLast?
          = some (numQueuedTasksFamily (get_num_queued_tasks_count st)) := by
  refine ⟨by decide, by decide, rfl, ?_⟩
  intro st herr
  rcases collect_cases st with ⟨e, hc⟩ | ⟨e, hc⟩ | ⟨e, hc⟩
    | ⟨e, dsS, hc⟩ | ⟨dsS, tsS, hc⟩
  · rw [hc] at herr; exact absurd herr (by simp)
  · rw [hc] at herr; exact absurd herr (by simp)
  · rw [hc] at herr; exact absurd herr (by simp)
  · rw [hc] at herr; exact absurd herr (by simp)
  · rw [hc]; rfl

/-- Witness for C6's theorem on a store with one queued task instance. -/
theorem empty_store_and_queued_family_witness :
    (collect c6wStore).families.getLast?
      = some (numQueuedTasksFamily (get_num_queued_tasks_count c6wStore))
    ∧ get_num_queued_tasks_count c6wStore = 1 :=
  ⟨empty_store_and_queued_family.2.2.2 c6wStore (by decide), by decide⟩

/-- Counterexample to C6's "for every store state" clause: `c6Store` has
one queued task instance, yet its scrape crashes in the task-duration loop
and no `airflow_num_queued_tasks` family is ever emitted. -/
theorem queued_family_counterexample :
    (collect c6Store).families.map (fun f => f.name) = ["airflow_task_status"]
    ∧ get_num_queued_tasks_count c6Store = 1
    ∧ ((collect c6Store).families.all
        fun f => f.name ≠ "airflow_num_queued_tasks") = true := by
  decide

/-- C7 (confirmed).  The dag-duration query is driven by `maxExecPerDag`:
the selected execution date of a dag is attained by a successful run with a
non-null end date and bounds every such run; under the schema's
`(dag_id, execution_date)` uniqueness the `end_date` of every returned row
comes from such a latest qualifying run; and adding a run that is not
successful or lacks an end date never changes the query's result. -/
theorem dag_duration_from_latest_successful_run (st : Store) :
    (∀ d m, (d, m) ∈ maxExecPerDag st →
      (∃ r ∈ st.dagRuns, dagRunQualifies r ∧ r.dag_id = d
        ∧ r.execution_date = m)
      ∧ ∀ r ∈ st.dagRuns, dagRunQualifies r → r.dag_id = d →
          r.execution_date ≤ m)
    ∧ (wfDagRuns st → ∀ row ∈ get_dag_duration_info_rows st,
        ∃ r ∈ st.dagRuns, dagRunQualifies r ∧ r.dag_id = row.dag_id
          ∧ r.end_date = row.end_date
          ∧ (row.dag_id, r.execution_date) ∈ maxExecPerDag st)
    ∧ ∀ r0, dagRunQualifies r0 = false → wfDagRuns (addDagRun st r0) →
        get_dag_duration_info_rows (addDagRun st r0)
          = get_dag_duration_info_rows st :=
  ⟨fun _ _ h => mem_maxExecPerDag h,
   fun hwf => dag_duration_end_from_qualifying hwf,
   fun _ h hwf => dag_duration_addDagRun h hwf⟩

/-- Witness for C7's theorem on `c7Store` (latest successful execution date
5, despite a more recent failed run at 7; the added run at execution date 9
is failed with no end date and changes nothing). -/
theorem dag_duration_from_latest_successful_run_witness :
    ((∃ r ∈ c7Store.dagRuns, dagRunQualifies r ∧ r.dag_id = "d"
        ∧ r.execution_date = 5)
      ∧ ∀ r ∈ c7Store.dagRuns, dagRunQualifies r → r.dag_id = "d" →
          r.execution_date ≤ 5)
    ∧ (∃ r ∈ c7Store.dagRuns,
        dagRunQualifies r
          ∧ r.dag_id = (⟨"d", some 1, some 10⟩ : DagDurationRow).dag_id
          ∧ r.end_date = (⟨"d", some 1, some 10⟩ : DagDurationRow).end_date
          ∧ ((⟨"d", some 1, some 10⟩ : DagDurationRow).dag_id,
              r.execution_date) ∈ maxExecPerDag c7Store)
    ∧ get_dag_duration_info_rows
        (addDagRun c7Store ⟨"d", some "failed", 9, none, none⟩)
      = get_dag_duration_info_rows c7Store := by
  have h := dag_duration_from_latest_successful_run c7Store
  exact ⟨h.1 "d" 5 (by decide),
    h.2.1 (by decide) ⟨"d", some 1, some 10⟩ (by decide),
    h.2.2 ⟨"d", some "failed", 9, none, none⟩ (by decide) (by decide)⟩

/-- C8 (confirmed).  A scrape is a pure function of the store: replaying
the first scrape's session trace against the store changes nothing, so a
second scrape against the resulting store returns the identical sequence
of families, the identical trace and the identical outcome. -/
theorem collect_pure_function_of_store (st : Store) :
    collect (runEvents st (collect st).trace) = collect st := by
  rw [runEvents_collect_trace]

/-- C9 (confirmed).  Neither the query layer nor `collect` ever issues a
write event: the full scrape trace and every query function's trace
(including the deferred failure-count read) are write-free, and replaying
the scrape trace leaves the store exactly as it was. -/
theorem no_writes_to_store (st : Store) :
    ((collect st).trace.all fun e => !e.isWrite) = true
    ∧ runEvents st (collect st).trace = st
    ∧ (((get_dag_state_info st).2 ++ (get_dag_duration_info st).2
        ++ (get_task_state_info st).2 ++ (get_task_failure_counts st).2
        ++ ((get_task_failure_counts st).1.force).2
        ++ (get_task_duration_info st).2
        ++ (get_dag_scheduler_delay st).2
        ++ (get_task_scheduler_delay st).2
        ++ (get_num_queued_tasks st).2).all fun e => !e.isWrite) = true :=
  ⟨collect_trace_noWrites st, runEvents_collect_trace st, rfl⟩

/-- C10 (corrected).  Seven of the eight query functions open a session,
perform their read inside it and close it on exit (`open, read, close`);
`get_task_failure_counts` opens and closes its session without reading —
it returns the lazy query, whose read only executes when the collector
iterates it, after the scope has exited. -/
theorem query_session_scoping (st : Store) :
    wellScoped (get_dag_state_info st).2 = true
    ∧ wellScoped (get_dag_duration_info st).2 = true
    ∧ wellScoped (get_task_state_info st).2 = true
    ∧ wellScoped (get_task_duration_info st).2 = true
    ∧ wellScoped (get_dag_scheduler_delay st).2 = true
    ∧ wellScoped (get_task_scheduler_delay st).2 = true
    ∧ wellScoped (get_num_queued_tasks st).2 = true
    ∧ (get_task_failure_counts st).2 = [SEvent.openS, SEvent.closeS]
    ∧ ((get_task_failure_counts st).1.force).2 = [SEvent.readS]
    ∧ ((get_task_failure_counts st).1.force).1
      = get_task_failure_counts_rows st :=
  ⟨rfl, rfl, rfl, rfl, rfl, rfl, rfl, rfl, rfl, rfl⟩

/-- Counterexample to C10 as stated: the complete session-event history of
one `get_task_failure_counts` use is `open, close, read` — the read
executes after the session scope has been exited, and no read happens
inside the scope. -/
theorem failure_counts_read_after_close :
    wellScoped ((get_task_failure_counts emptyStore).2
      ++ ((get_task_failure_counts emptyStore).1.force).2) = false
    ∧ (((get_task_failure_counts emptyStore).2).all
        fun e => e ≠ SEvent.readS) = true := by
  decide

end AirflowExporter
